import Mathlib

/-!
Verification of the property-annotation coordinate model and the
find-and-replace command adapter of the `substance` repository, embedded
shallowly in Lean 4.

Embedded source files:
* `src/model/PropertyAnnotation.js` (the class `PropertyAnnotation`,
  here named `PropertyAnn` : `getText`, `updateRange`, `isInsideOf`,
  `startPath`, `endPath`)
* `src/packages/find-and-replace/FindAndReplaceCommand.js`

Design decisions of the embedding:
* JS strings become `List Char`; paths become `List String`;
  character offsets become `Int` (JS numbers used only integrally here).
* The owning document is modelled as a total map from paths to texts;
  attachment (`getDocument()`) becomes an `Option Document` field.
* `tx.set(keyPath, value)` mutations are recorded as an emitted list of
  `TxSet` records; `updateRange` returns `Except String (List TxSet)`
  so the thrown `Error` is the `.error` case, with no mutations emitted.
-/

/-- A JS value passed to `tx.set`: either an array of strings (a path)
or a number (an offset). -/
inductive TxValue where
  | arr (p : List String) : TxValue
  | num (n : Int) : TxValue
  deriving Repr, DecidableEq

/-- One recorded `tx.set(keyPath, value)` mutation. -/
structure TxSet where
  key : List String
  value : TxValue
  deriving Repr, DecidableEq

/-- Modelled from the spec: `src/util/isArrayEqual` is imported by
`PropertyAnnotation.js` but is not included under `src/`. The spec
describes the comparison as element-wise equality of the two paths
("the annotation's path equals sel.path element-wise"). -/
def isArrayEqual (a b : List String) : Bool :=
  a == b

/-- The owning document, as far as this slice needs it:
`doc.get(path)` returns the text stored at `path`.
Modelled from the spec: the document model itself is not under `src/`;
the spec records only `document.get(path) → text`. -/
structure Document where
  get : List String → List Char

/-- Modelled from the spec: selections are produced outside the given
source. A selection carries a null flag (`sel.isNull()`), a kind flag
(`sel.isPropertySelection()`), a `path` and the two offsets; for a
property selection, `sel.start.path = sel.path`,
`sel.start.offset = sel.startOffset` and `sel.end.offset = sel.endOffset`. -/
structure Selection where
  isNull : Bool
  isPropertySelection : Bool
  path : List String
  startOffset : Int
  endOffset : Int
  deriving Repr, DecidableEq

/-- `sel.start.path` of a property selection. -/
def Selection.startCoordPath (sel : Selection) : List String :=
  sel.path

/-- `sel.start.offset` of a property selection. -/
def Selection.startCoordOffset (sel : Selection) : Int :=
  sel.startOffset

/-- `sel.end.offset` of a property selection. -/
def Selection.endCoordOffset (sel : Selection) : Int :=
  sel.endOffset

/-- The `PropertyAnnotation` node (renamed `PropertyAnn`): a range
marker `(path, startOffset, endOffset)` over a single text field,
with the inherited node `id` and the attachment state of the
`DocumentNode` base (modelled from the spec as an optional owning
document, since `DocumentNode` is not under `src/`). -/
structure PropertyAnn where
  id : String
  path : List String
  startOffset : Int
  endOffset : Int
  document : Option Document

/-- `this.getDocument()` of the `DocumentNode` base: yields the owning
document when attached. -/
def PropertyAnn.getDocument (a : PropertyAnn) : Option Document :=
  a.document

/-- ECMAScript `String.prototype.substring(indexStart, indexEnd)`:
both indices are clamped into `[0, length]` and swapped when
`indexStart > indexEnd`; the characters from the smaller to the larger
clamped index are returned. -/
def jsSubstring (text : List Char) (s e : Int) : List Char :=
  let len : Int := text.length
  let s' : Int := min (max s 0) len
  let e' : Int := min (max e 0) len
  let lo : Int := min s' e'
  let hi : Int := max s' e'
  (text.drop lo.toNat).take (hi - lo).toNat

/-- `PropertyAnnotation.getText()`: if detached, warn and return `""`;
otherwise return `doc.get(this.path).substring(startOffset, endOffset)`. -/
def PropertyAnn.getText (a : PropertyAnn) : List Char :=
  match a.getDocument with
  | none => []
  | some doc => jsSubstring (doc.get a.path) a.startOffset a.endOffset

/-- `PropertyAnnotation.canSplit()`: always `true` for this variant. -/
def PropertyAnn.canSplit (_a : PropertyAnn) : Bool :=
  true

/-- `PropertyAnnotation.isAnchor()`: always `false` for this variant. -/
def PropertyAnn.isAnchor (_a : PropertyAnn) : Bool :=
  false

/-- The `startPath` accessor: returns `this.path`. -/
def PropertyAnn.startPath (a : PropertyAnn) : List String :=
  a.path

/-- The `endPath` accessor: returns `this.path`. -/
def PropertyAnn.endPath (a : PropertyAnn) : List String :=
  a.path

/-- `PropertyAnnotation.updateRange(tx, sel)`: throws
`'Cannot change to ContainerAnnotation.'` unless `sel` is a property
selection; otherwise emits `tx.set([this.id, field], value)` for each of
`path`, `startOffset`, `endOffset` that differs from `sel`, in that
order. -/
def PropertyAnn.updateRange (a : PropertyAnn) (sel : Selection) :
    Except String (List TxSet) :=
  if ¬ sel.isPropertySelection then
    .error "Cannot change to ContainerAnnotation."
  else
    .ok (
      (if ¬ isArrayEqual a.startPath sel.startCoordPath then
        [⟨[a.id, "path"], .arr sel.startCoordPath⟩] else []) ++
      (if a.startOffset ≠ sel.startCoordOffset then
        [⟨[a.id, "startOffset"], .num sel.startCoordOffset⟩] else []) ++
      (if a.endOffset ≠ sel.endCoordOffset then
        [⟨[a.id, "endOffset"], .num sel.endCoordOffset⟩] else []))

/-- `PropertyAnnotation.isInsideOf(sel, _strict)`: false on a null
selection; otherwise path equality plus strict (`>` / `<`) or
non-strict (`>=` / `<=`) offset containment. -/
def PropertyAnn.isInsideOf (a : PropertyAnn) (sel : Selection)
    (strict : Bool) : Bool :=
  if sel.isNull then false
  else if strict then
    isArrayEqual a.path sel.path &&
      decide (a.startOffset > sel.startOffset) &&
      decide (a.endOffset < sel.endOffset)
  else
    isArrayEqual a.path sel.path &&
      decide (a.startOffset ≥ sel.startOffset) &&
      decide (a.endOffset ≤ sel.endOffset)

/-- `FindAndReplaceCommand`'s collaborators, modelled from the spec:
a manager holding a command state, and an editor session resolving
manager names (`editorSession.getManager(name)`). The command state is
an opaque value, so it is a type parameter. -/
structure Manager (α : Type) where
  getCommandState : α

/-- Modelled from the spec: the editor session, exposing
`getManager(name)`. -/
structure EditorSession (α : Type) where
  getManager : String → Manager α

/-- `FindAndReplaceCommand.getCommandState({editorSession})`: looks up
the manager named `'find-and-replace'` and returns its command state. -/
def FindAndReplaceCommand.getCommandState {α : Type}
    (editorSession : EditorSession α) : α :=
  (editorSession.getManager "find-and-replace").getCommandState

/-- The spec-side substring `[s, e)` of a text, with no clamping or
swapping: characters at indices `s, s+1, …, e-1`. -/
def specSlice (text : List Char) (s e : Nat) : List Char :=
  (text.take e).drop s

/-! ### Concrete fixtures (used by witness theorems) -/

/-- A concrete document holding `"Hello, wonderful world!"` at
`['p1', 'content']` (the example of the spec). -/
def doc0 : Document :=
  ⟨fun p => if p = ["p1", "content"] then "Hello, wonderful world!".toList else []⟩

/-- The example annotation `{path: ['p1','content'], startOffset: 10,
endOffset: 19}`, attached to `doc0`. -/
def ann0 : PropertyAnn :=
  ⟨"s1", ["p1", "content"], 10, 19, some doc0⟩

/-- The example annotation, detached from any document. -/
def annDetached : PropertyAnn :=
  ⟨"s1", ["p1", "content"], 10, 19, none⟩

/-- A wide property selection strictly containing `ann0`'s range. -/
def selWide : Selection :=
  ⟨false, true, ["p1", "content"], 5, 25⟩

/-- A property selection identical to `ann0`'s range. -/
def selExact : Selection :=
  ⟨false, true, ["p1", "content"], 10, 19⟩

/-- A property selection differing from `ann0` only in `endOffset`. -/
def selEndDiff : Selection :=
  ⟨false, true, ["p1", "content"], 10, 21⟩

/-- The null selection. -/
def selNull : Selection :=
  ⟨true, false, [], 0, 0⟩

/-- A non-property (container-like) selection over `ann0`'s range. -/
def selContainer : Selection :=
  ⟨false, false, ["p1", "content"], 10, 19⟩

/-! ### Helper lemmas -/

/-- Under the annotation invariant `0 ≤ s ≤ e ≤ length`, the JS
`substring` clamps and swaps nothing: it is the plain slice. -/
theorem jsSubstring_of_bounds (t : List Char) (s e : Int)
    (h0 : 0 ≤ s) (h1 : s ≤ e) (h2 : e ≤ (t.length : Int)) :
    jsSubstring t s e = (t.drop s.toNat).take (e - s).toNat := by
  unfold jsSubstring
  have e1 : min (max s 0) (t.length : Int) = s := by omega
  have e2 : min (max e 0) (t.length : Int) = e := by omega
  simp only [e1, e2, min_eq_left h1, max_eq_right h1]

/-! ### Claims -/

/-- C1: for every attached annotation with
`0 ≤ startOffset ≤ endOffset ≤ length of the text at path`, `getText()`
returns exactly the substring of the document's text at `path` from
`startOffset` (inclusive) to `endOffset` (exclusive), and that string
has length `endOffset - startOffset`. -/
theorem getText_returns_substring (a : PropertyAnn) (doc : Document)
    (hdoc : a.getDocument = some doc)
    (h0 : 0 ≤ a.startOffset)
    (h1 : a.startOffset ≤ a.endOffset)
    (h2 : a.endOffset ≤ ((doc.get a.path).length : Int)) :
    a.getText = specSlice (doc.get a.path) a.startOffset.toNat a.endOffset.toNat ∧
    a.getText.length = (a.endOffset - a.startOffset).toNat := by
  have hget : a.getText = jsSubstring (doc.get a.path) a.startOffset a.endOffset := by
    simp [PropertyAnn.getText, hdoc]
  rw [hget, jsSubstring_of_bounds _ _ _ h0 h1 h2]
  constructor
  · rw [specSlice, List.drop_take]
    congr 1
    omega
  · simp only [List.length_take, List.length_drop]
    omega

/-- C1 witness: the example annotation `[10, 19)` over
`"Hello, wonderful world!"` yields the 9-character substring
`"derful wo"` (offsets 10–18; the word `"wonderful"` itself occupies
offsets 7–16 of this text). -/
theorem getText_returns_substring_witness :
    ann0.getDocument = some doc0 ∧
    0 ≤ ann0.startOffset ∧ ann0.startOffset ≤ ann0.endOffset ∧
    ann0.endOffset ≤ (((doc0.get ann0.path)).length : Int) ∧
    ann0.getText = "derful wo".toList ∧
    (ann0.getText = specSlice (doc0.get ann0.path) ann0.startOffset.toNat ann0.endOffset.toNat ∧
     ann0.getText.length = (ann0.endOffset - ann0.startOffset).toNat) :=
  ⟨rfl, by decide, by decide, by decide, by decide,
    getText_returns_substring ann0 doc0 rfl (by decide) (by decide) (by decide)⟩

/-- C2: on a non-null selection, `isInsideOf(sel, true)` is true iff the
path matches element-wise, `startOffset > sel.startOffset` and
`endOffset < sel.endOffset`; any boundary-touching case is false. -/
theorem isInsideOf_strict_characterization (a : PropertyAnn) (sel : Selection)
    (h : sel.isNull = false) :
    (a.isInsideOf sel true = true ↔
      a.path = sel.path ∧ a.startOffset > sel.startOffset ∧
        a.endOffset < sel.endOffset) ∧
    ((a.startOffset = sel.startOffset ∨ a.endOffset = sel.endOffset) →
      a.isInsideOf sel true = false) := by
  constructor
  · simp [PropertyAnn.isInsideOf, h, isArrayEqual, and_assoc]
  · intro hb
    rcases hb with hb | hb <;>
      simp [PropertyAnn.isInsideOf, h, isArrayEqual] <;>
      intro _ <;> omega

/-- C2 witness: a selection exactly matching the annotation's range is
non-null, and strict containment rejects it. -/
theorem isInsideOf_strict_characterization_witness :
    selExact.isNull = false ∧
    ann0.isInsideOf selExact true = false ∧
    ((ann0.isInsideOf selExact true = true ↔
      ann0.path = selExact.path ∧ ann0.startOffset > selExact.startOffset ∧
        ann0.endOffset < selExact.endOffset) ∧
     ((ann0.startOffset = selExact.startOffset ∨
       ann0.endOffset = selExact.endOffset) →
      ann0.isInsideOf selExact true = false)) :=
  ⟨rfl, by decide, isInsideOf_strict_characterization ann0 selExact rfl⟩

/-- C3: on a non-null selection, `isInsideOf(sel, false)` is true iff
the path matches element-wise, `startOffset ≥ sel.startOffset` and
`endOffset ≤ sel.endOffset`. -/
theorem isInsideOf_nonstrict_characterization (a : PropertyAnn) (sel : Selection)
    (h : sel.isNull = false) :
    a.isInsideOf sel false = true ↔
      a.path = sel.path ∧ a.startOffset ≥ sel.startOffset ∧
        a.endOffset ≤ sel.endOffset := by
  simp [PropertyAnn.isInsideOf, h, isArrayEqual, and_assoc]

/-- C3 witness: the wide selection `[5, 25)` contains the example
annotation `[10, 19)` non-strictly. -/
theorem isInsideOf_nonstrict_characterization_witness :
    selWide.isNull = false ∧
    ann0.isInsideOf selWide false = true ∧
    (ann0.isInsideOf selWide false = true ↔
      ann0.path = selWide.path ∧ ann0.startOffset ≥ selWide.startOffset ∧
        ann0.endOffset ≤ selWide.endOffset) :=
  ⟨rfl, by decide, isInsideOf_nonstrict_characterization ann0 selWide rfl⟩

/-- C4: on a property selection, `updateRange` emits exactly one
`tx.set` per differing field, in source order; in particular one
mutation when only `endOffset` differs and none when nothing differs. -/
theorem updateRange_emits_only_diffs (a : PropertyAnn) (sel : Selection)
    (h : sel.isPropertySelection = true) :
    a.updateRange sel = Except.ok (
      (if a.path = sel.path then [] else
        [⟨[a.id, "path"], TxValue.arr sel.path⟩]) ++
      (if a.startOffset = sel.startOffset then [] else
        [⟨[a.id, "startOffset"], TxValue.num sel.startOffset⟩]) ++
      (if a.endOffset = sel.endOffset then [] else
        [⟨[a.id, "endOffset"], TxValue.num sel.endOffset⟩])) ∧
    (a.path = sel.path ∧ a.startOffset = sel.startOffset ∧
        a.endOffset ≠ sel.endOffset →
      a.updateRange sel =
        Except.ok [⟨[a.id, "endOffset"], TxValue.num sel.endOffset⟩]) ∧
    (a.path = sel.path ∧ a.startOffset = sel.startOffset ∧
        a.endOffset = sel.endOffset →
      a.updateRange sel = Except.ok []) := by
  have main : a.updateRange sel = Except.ok (
      (if a.path = sel.path then [] else
        [⟨[a.id, "path"], TxValue.arr sel.path⟩]) ++
      (if a.startOffset = sel.startOffset then [] else
        [⟨[a.id, "startOffset"], TxValue.num sel.startOffset⟩]) ++
      (if a.endOffset = sel.endOffset then [] else
        [⟨[a.id, "endOffset"], TxValue.num sel.endOffset⟩])) := by
    by_cases h1 : a.path = sel.path <;>
      by_cases h2 : a.startOffset = sel.startOffset <;>
        by_cases h3 : a.endOffset = sel.endOffset <;>
          simp [PropertyAnn.updateRange, PropertyAnn.startPath,
            Selection.startCoordPath, Selection.startCoordOffset,
            Selection.endCoordOffset, isArrayEqual, h, h1, h2, h3]
  refine ⟨main, ?_, ?_⟩
  · rintro ⟨h1, h2, h3⟩
    rw [main]
    simp [h1, h2, h3]
  · rintro ⟨h1, h2, h3⟩
    rw [main]
    simp [h1, h2, h3]

/-- C4 witness: a selection differing only in `endOffset` yields exactly
the one `endOffset` mutation; an identical selection yields none. -/
theorem updateRange_emits_only_diffs_witness :
    selEndDiff.isPropertySelection = true ∧
    ann0.updateRange selEndDiff =
      Except.ok [⟨["s1", "endOffset"], TxValue.num 21⟩] ∧
    ann0.updateRange selExact = Except.ok [] :=
  ⟨rfl,
    (updateRange_emits_only_diffs ann0 selEndDiff rfl).2.1
      ⟨rfl, rfl, by decide⟩,
    (updateRange_emits_only_diffs ann0 selExact rfl).2.2 ⟨rfl, rfl, rfl⟩⟩

/-- C5: on a non-property selection, `updateRange` raises
`'Cannot change to ContainerAnnotation.'` and emits no mutation. -/
theorem updateRange_nonproperty_raises (a : PropertyAnn) (sel : Selection)
    (h : sel.isPropertySelection = false) :
    a.updateRange sel = Except.error "Cannot change to ContainerAnnotation." ∧
    ∀ muts : List TxSet, a.updateRange sel ≠ Except.ok muts := by
  refine ⟨by simp [PropertyAnn.updateRange, h], ?_⟩
  intro muts
  simp [PropertyAnn.updateRange, h]

/-- C5 witness: the container-like selection makes `updateRange` raise. -/
theorem updateRange_nonproperty_raises_witness :
    selContainer.isPropertySelection = false ∧
    (ann0.updateRange selContainer =
       Except.error "Cannot change to ContainerAnnotation." ∧
     ∀ muts : List TxSet, ann0.updateRange selContainer ≠ Except.ok muts) :=
  ⟨rfl, updateRange_nonproperty_raises ann0 selContainer rfl⟩

/-- C6: a detached annotation's `getText()` returns the empty string. -/
theorem getText_detached_empty (a : PropertyAnn)
    (h : a.getDocument = none) :
    a.getText = [] := by
  simp [PropertyAnn.getText, h]

/-- C6 witness: the detached example annotation yields `""`. -/
theorem getText_detached_empty_witness :
    annDetached.getDocument = none ∧ annDetached.getText = [] :=
  ⟨rfl, getText_detached_empty annDetached rfl⟩

/-- C7: on a null selection, `isInsideOf` is false for both strict
flags. -/
theorem isInsideOf_null_selection_false (a : PropertyAnn)
    (sel : Selection) (strict : Bool) (h : sel.isNull = true) :
    a.isInsideOf sel strict = false := by
  simp [PropertyAnn.isInsideOf, h]

/-- C7 witness: the null selection is rejected under both flags. -/
theorem isInsideOf_null_selection_false_witness :
    selNull.isNull = true ∧
    ann0.isInsideOf selNull true = false ∧
    ann0.isInsideOf selNull false = false :=
  ⟨rfl, isInsideOf_null_selection_false ann0 selNull true rfl,
    isInsideOf_null_selection_false ann0 selNull false rfl⟩

/-- C8: `startPath` and `endPath` both return the annotation's `path`,
in every state. -/
theorem startPath_endPath_coincide (a : PropertyAnn) :
    a.startPath = a.path ∧ a.endPath = a.path :=
  ⟨rfl, rfl⟩

/-- C9: `FindAndReplaceCommand.getCommandState` returns the command
state of the session's `'find-and-replace'` manager unmodified. -/
theorem getCommandState_delegates {α : Type} (es : EditorSession α) :
    FindAndReplaceCommand.getCommandState es =
      (es.getManager "find-and-replace").getCommandState :=
  rfl

/-- C10: strict containment implies non-strict containment. -/
theorem isInsideOf_strict_implies_nonstrict (a : PropertyAnn)
    (sel : Selection) (h : a.isInsideOf sel true = true) :
    a.isInsideOf sel false = true := by
  by_cases hn : sel.isNull
  · simp [PropertyAnn.isInsideOf, hn] at h
  · simp [PropertyAnn.isInsideOf, hn, isArrayEqual, and_assoc] at h ⊢
    obtain ⟨h1, h2, h3⟩ := h
    exact ⟨h1, by omega, by omega⟩

/-- C10 witness: the wide selection strictly contains the example
annotation, hence also non-strictly. -/
theorem isInsideOf_strict_implies_nonstrict_witness :
    ann0.isInsideOf selWide true = true ∧
    ann0.isInsideOf selWide false = true :=
  ⟨by decide, isInsideOf_strict_implies_nonstrict ann0 selWide (by decide)⟩
